import Mathlib

/-
Verification of the slimproto player provider
(src/music_assistant/server/providers/slimproto/__init__.py).

The provider state (socket clients, players, drift playpoint rings and
resync backoffs) is embedded as explicit data; the event handlers and
orchestrator commands are embedded as pure state transformers that also
return the list of externally visible effects (frames sent to clients,
queue-controller calls, cache writes, player-manager updates).

Python dicts are modelled as association lists preserving insertion order,
Python sets of player ids as duplicate-free lists preserving insertion
order, wall-clock time as an explicit rational parameter, and float
arithmetic of `statistics.fmean` as exact rational arithmetic (exact for
the integer millisecond samples involved).
-/

namespace Slimproto

/-- Transport state of a slimproto socket client (aioslimproto PlayerState). -/
inductive SlimPlayerState
  | buffering
  | bufferReady
  | paused
  | playing
  | stopped
deriving DecidableEq, Repr

/-- Player state as reported to the MA player manager. -/
inductive PlayerState
  | idle
  | paused
  | playing
deriving DecidableEq, Repr

/-- STATE_MAP from the source: aioslimproto state to MA player state. -/
def STATE_MAP : SlimPlayerState → PlayerState
  | .buffering => .playing
  | .bufferReady => .playing
  | .paused => .paused
  | .playing => .playing
  | .stopped => .idle

/-- Per-connection state of a slimproto socket client: the fields of the
aioslimproto SlimClient that the provider reads.  Modelled from the spec:
the Client Session component is the external aioslimproto library; the
fields follow the Session data model (elapsed_milliseconds is the
linearly extrapolated reading at the moment of use). -/
structure SlimClient where
  player_id : String
  name : String
  powered : Bool
  muted : Bool
  volume_level : Int
  state : SlimPlayerState
  jiffies : Nat
  elapsed_milliseconds : Int
  current_url : Option String
deriving DecidableEq, Repr

/-- Player record held by the MA player manager (the fields the provider
reads or writes).  Modelled from the spec: the Player data model of the
registry; a freshly created player has no leader, no followers. -/
structure Player where
  player_id : String
  available : Bool
  name : String
  powered : Bool
  state : PlayerState
  volume_level : Int
  volume_muted : Bool
  current_url : Option String
  can_sync_with : List String
  synced_to : Option String
  group_childs : List String
deriving DecidableEq, Repr

/-- SyncPlayPoint from the source: one drift sample. -/
structure SyncPlayPoint where
  timestamp : ℚ
  sync_job_id : String
  diff : Int
deriving DecidableEq, Repr

/-- Multi client stream job handle (external collaborator): the parts the
provider inspects. -/
structure StreamJob where
  job_id : String
  pending : Bool
  running : Bool
  client_seconds_skipped : String → Int
  resolve_url : String → String

/-- External collaborators reached through the mass object: the queue
controller, the streamer job table and the per-player config. -/
structure Env where
  active_queue : String → String
  multi_client_jobs : String → Option StreamJob
  sync_adjust : String → Int

/-- Mutable provider state: the socket-client map, the player table, the
drift playpoint rings and the per-player resync backoffs. -/
structure PState where
  socket_clients : List (String × SlimClient)
  players : List (String × Player)
  sync_playpoints : List (String × List SyncPlayPoint)
  do_not_resync_before : List (String × ℚ)
deriving DecidableEq, Repr

/-- Externally visible effects of a handler or command. -/
inductive Effect
  | strm (player_id : String) (sub : Char) (replay_gain : Int)
  | strmStart (player_id : String) (url : String) (send_flush : Bool) (autostart : Bool)
  | resumeQueue (queue_id : String) (fade_in : Bool)
  | playerUpdate (player_id : String)
  | cacheSet (player_id : String) (powered : Bool) (volume : Int)
  | powerCmd (player_id : String) (powered : Bool)
  | volumeCmd (player_id : String) (level : Int)
  | disconnect (player_id : String)
deriving DecidableEq, Repr

/-- Dict lookup on an association list (first entry with the key). -/
def alookup {α : Type} (l : List (String × α)) (k : String) : Option α :=
  match l with
  | [] => none
  | (k', v) :: rest => if k' = k then some v else alookup rest k

/-- In-place mutation of the value stored at a key (no-op if absent). -/
def aupdate {α : Type} (l : List (String × α)) (k : String) (f : α → α) :
    List (String × α) :=
  match l with
  | [] => []
  | (k', v) :: rest =>
    if k' = k then (k', f v) :: aupdate rest k f else (k', v) :: aupdate rest k f

/-- Dict item assignment: replace in place or append (insertion order kept). -/
def ainsert {α : Type} (l : List (String × α)) (k : String) (v : α) :
    List (String × α) :=
  match l with
  | [] => [(k, v)]
  | (k', v') :: rest => if k' = k then (k, v) :: rest else (k', v') :: ainsert rest k v

/-- Dict pop: drop every entry with the key. -/
def aerase {α : Type} (l : List (String × α)) (k : String) : List (String × α) :=
  l.filter (fun kv => kv.1 ≠ k)

/-- Python set.add on a duplicate-free list (insertion order kept). -/
def setAdd (l : List String) (x : String) : List String :=
  if x ∈ l then l else l ++ [x]

/-- Python set.remove (with KeyError suppressed) / set.discard. -/
def setRemove (l : List String) (x : String) : List String :=
  l.erase x

/-- Sync constants from the source. -/
def MIN_DEVIATION_ADJUST : ℚ := 10

/-- Minimum number of playpoint measurements before a correction. -/
def MIN_REQ_PLAYPOINTS : Nat := 4

/-- Experimental join-in-progress flag; disabled in the source. -/
def ENABLE_EXPERIMENTAL_SYNC_JOIN : Bool := false

/-- Source _get_sync_clients, id part: the player itself plus its
group_childs (a Python set union, modelled in insertion order). -/
def syncClientIds (st : PState) (player_id : String) : List String :=
  match alookup st.players player_id with
  | none => []
  | some player => player_id :: player.group_childs.filter (fun x => x ≠ player_id)

/-- Source _get_sync_clients: the socket clients of the sync group. -/
def getSyncClients (st : PState) (player_id : String) : List SlimClient :=
  (syncClientIds st player_id).filterMap (fun cid => alookup st.socket_clients cid)

/-- Source client.stop call.  Modelled from the spec: a session transport
command in the registered state is serialized and sent as one frame; stop
is the strm q frame. -/
def clientStop (c : SlimClient) : Effect :=
  .strm c.player_id 'q' 0

/-- Source client.play call.  Modelled from the spec: the session play
(unpause) command is serialized and sent as one strm u frame. -/
def clientPlay (c : SlimClient) : Effect :=
  .strm c.player_id 'u' 0

/-- Source client.pause call.  Modelled from the spec: the session pause
command is serialized and sent as one strm p frame. -/
def clientPause (c : SlimClient) : Effect :=
  .strm c.player_id 'p' 0

/-- Source client._process_stat_stmu workaround used by cmd_stop: mark the
client stopped.  Modelled from the spec: transport state is derived from
the STAT sub-opcode (STMu means stopped). -/
def processStatStmu (c : SlimClient) : SlimClient :=
  { c with state := .stopped }

/-- Loop body of cmd_stop over the resolved sync clients: skip a client
that is already stopped, otherwise send stop and mark the client stopped. -/
def stopClients (st : PState) (cs : List SlimClient) (effs : List Effect) :
    PState × List Effect :=
  match cs with
  | [] => (st, effs)
  | c :: rest =>
    if c.state = .stopped then stopClients st rest effs
    else
      stopClients
        { st with socket_clients := aupdate st.socket_clients c.player_id processStatStmu }
        rest (effs ++ [clientStop c])

/-- Source cmd_stop: forward STOP to the player and any connected sync
child, skipping clients that are already stopped. -/
def cmd_stop (st : PState) (player_id : String) : PState × List Effect :=
  stopClients st (getSyncClients st player_id) []

/-- Source cmd_play: forward PLAY to the group, skipping clients whose
state is not paused, buffering or buffer-ready. -/
def cmd_play (st : PState) (player_id : String) : List Effect :=
  (getSyncClients st player_id).filterMap (fun c =>
    if c.state = .paused ∨ c.state = .buffering ∨ c.state = .bufferReady
    then some (clientPlay c) else none)

/-- Source cmd_pause: forward PAUSE to the group, skipping clients whose
state is not playing, buffering or buffer-ready. -/
def cmd_pause (st : PState) (player_id : String) : List Effect :=
  (getSyncClients st player_id).filterMap (fun c =>
    if c.state = .playing ∨ c.state = .buffering ∨ c.state = .bufferReady
    then some (clientPause c) else none)

/-- Source _handle_play_url together with client.play_url.  Modelled from
the spec: the session serializes the play-url command into one strm s
(start) frame carrying the flush and autostart flags. -/
def handle_play_url (c : SlimClient) (url : String) (send_flush autostart : Bool) :
    List Effect :=
  [.strmStart c.player_id url send_flush autostart]

/-- Result of an orchestrator command that can raise: the state reached,
the effects already performed, and the error if one was raised.  A raise
does not roll the earlier effects back. -/
structure CmdOutcome where
  st : PState
  effects : List Effect
  error : Option String

/-- Source cmd_play_url: stop first, then reject a synced (follower)
player, otherwise fan the play-url out to the whole group with autostart
only when the group is a single client. -/
def cmd_play_url (st : PState) (player_id url : String) : CmdOutcome :=
  let r := cmd_stop st player_id
  match alookup r.1.players player_id with
  | none => ⟨r.1, r.2, some "AttributeError"⟩
  | some player =>
    if player.synced_to.isSome then
      ⟨r.1, r.2, some "A synced player cannot receive play commands directly"⟩
    else
      let sync_clients := getSyncClients r.1 player_id
      ⟨r.1,
       r.2 ++ sync_clients.flatMap
         (fun c => handle_play_url c url true (sync_clients.length = 1)),
       none⟩

/-- Source cmd_handle_stream_job: stop first, then reject a synced
(follower) player, otherwise fan out per-client resolved stream urls. -/
def cmd_handle_stream_job (st : PState) (player_id : String) (stream_job : StreamJob) :
    CmdOutcome :=
  let r := cmd_stop st player_id
  match alookup r.1.players player_id with
  | none => ⟨r.1, r.2, some "AttributeError"⟩
  | some player =>
    if player.synced_to.isSome then
      ⟨r.1, r.2, some "A synced player cannot receive play commands directly"⟩
    else
      let sync_clients := getSyncClients r.1 player_id
      ⟨r.1,
       r.2 ++ sync_clients.flatMap
         (fun c =>
           handle_play_url c (stream_job.resolve_url c.player_id) true
             (sync_clients.length = 1)),
       none⟩

/-- Source cmd_sync: assert both players exist, add the parent and the
child to the parent group_childs set, point the child synced_to at the
parent, then either restart playback (parent playing) or emit updates.
The experimental join path is guarded by a flag that is false. -/
def cmd_sync (env : Env) (st : PState) (player_id target_player : String) :
    Except String (PState × List Effect) :=
  match alookup st.players player_id with
  | none => .error "assert child_player"
  | some child_player =>
  match alookup st.players target_player with
  | none => .error "assert parent_player"
  | some parent_player =>
    let addChilds := fun (p : Player) =>
      { p with group_childs := setAdd (setAdd p.group_childs p.player_id) child_player.player_id }
    let setLeader := fun (p : Player) => { p with synced_to := some parent_player.player_id }
    let st1 := { st with players := aupdate st.players target_player addChilds }
    let st2 := { st1 with players := aupdate st1.players child_player.player_id setLeader }
    let queue_id := env.active_queue parent_player.player_id
    let stream_job := env.multi_client_jobs queue_id
    let experimental := ENABLE_EXPERIMENTAL_SYNC_JOIN &&
      (match stream_job with
       | some job => job.pending || job.running
       | none => false)
    let effs :=
      if experimental then
        match stream_job with
        | some job => [.strmStart player_id (job.resolve_url player_id) true true]
        | none => []
      else
        match alookup st2.players parent_player.player_id with
        | some parent2 =>
          if parent2.state = .playing then [.resumeQueue queue_id false]
          else [.playerUpdate child_player.player_id, .playerUpdate parent_player.player_id]
        | none => []
    .ok (st2, effs)

/-- Source cmd_unsync: stop the child, clear its synced_to, remove it from
the parent group_childs, and dissolve the group when only the parent
itself is left in its own follower set.  The source reaches its failure
(an attribute error on a missing or unsynced player) only after the stop;
no claim depends on that partial state, so the error is surfaced up
front. -/
def cmd_unsync (st : PState) (player_id : String) :
    Except String (PState × List Effect) :=
  match alookup st.players player_id with
  | none => .error "child player not found"
  | some child_player =>
  match child_player.synced_to with
  | none => .error "player is not synced"
  | some master_id =>
  match alookup st.players master_id with
  | none => .error "parent player not found"
  | some _parent_player =>
    let r := cmd_stop st child_player.player_id
    let clearLeader := fun (p : Player) => { p with synced_to := none }
    let dropChild := fun (p : Player) =>
      { p with group_childs := setRemove p.group_childs child_player.player_id }
    let dropSelf := fun (p : Player) =>
      { p with group_childs := setRemove p.group_childs p.player_id }
    let st2 := { r.1 with players := aupdate r.1.players player_id clearLeader }
    let st3 := { st2 with players := aupdate st2.players master_id dropChild }
    let st4 :=
      match alookup st3.players master_id with
      | some parent3 =>
        if parent3.group_childs = [parent3.player_id] then
          { st3 with players := aupdate st3.players master_id dropSelf }
        else st3
      | none => st3
    .ok (st4, r.2 ++ [.playerUpdate player_id, .playerUpdate master_id])

/-- Source _get_corrected_elapsed_milliseconds: raw elapsed plus the
milliseconds the client skipped on joining, minus the configured
per-player sync delay. -/
def corrected_elapsed_ms (env : Env) (client : SlimClient) : Int :=
  let queue_id := env.active_queue client.player_id
  let skipped_millis : Int :=
    match env.multi_client_jobs queue_id with
    | some job => job.client_seconds_skipped client.player_id * 1000
    | none => 0
  let sync_delay := env.sync_adjust client.player_id
  let current_millis := skipped_millis + client.elapsed_milliseconds
  if sync_delay ≠ 0 then current_millis - sync_delay else current_millis

/-- Append on a deque with maxlen MIN_REQ_PLAYPOINTS: the oldest entry is
overwritten when the deque is full. -/
def dequeAppend (ring : List SyncPlayPoint) (pp : SyncPlayPoint) : List SyncPlayPoint :=
  if ring.length < MIN_REQ_PLAYPOINTS then ring ++ [pp] else ring.tail ++ [pp]

/-- statistics.fmean over the diffs of the ring, modelled exactly in ℚ
(float arithmetic is exact for these integer samples and window size). -/
def ringMean (ring : List SyncPlayPoint) : ℚ :=
  (ring.map (fun pp => (pp.diff : ℚ))).sum / ring.length

/-- The new playpoint appended on a follower heartbeat: the current
instant, the current job id, and the corrected master-minus-follower
elapsed difference in milliseconds. -/
def newPlaypoint (env : Env) (now : ℚ) (sync_master client : SlimClient)
    (job : StreamJob) : SyncPlayPoint :=
  ⟨now, job.job_id, corrected_elapsed_ms env sync_master - corrected_elapsed_ms env client⟩

/-- Tail of _handle_client_sync once the preconditions passed: invalidate
the ring on a stale or job-mismatched last playpoint, append the new
playpoint, and apply the mean-deadband correction policy. -/
def driftStep (env : Env) (now : ℚ) (st : PState) (client : SlimClient)
    (sync_master : SlimClient) (stream_job : StreamJob) (ring0 : List SyncPlayPoint) :
    PState × List Effect :=
  let last_playpoint := ring0.getLast?
  let ring1 :=
    match last_playpoint with
    | some lp => if now - lp.timestamp > 10 then [] else ring0
    | none => ring0
  let ring2 :=
    match last_playpoint with
    | some lp => if lp.sync_job_id ≠ stream_job.job_id then [] else ring1
    | none => ring1
  let ring3 := dequeAppend ring2 (newPlaypoint env now sync_master client stream_job)
  if ring3.length < MIN_REQ_PLAYPOINTS then
    ({ st with sync_playpoints := ainsert st.sync_playpoints client.player_id ring3 },
     [])
  else
    let avg_diff := ringMean ring3
    let delta := |avg_diff|
    if delta < MIN_DEVIATION_ADJUST then
      ({ st with sync_playpoints := ainsert st.sync_playpoints client.player_id ring3 },
       [])
    else if avg_diff > 0 then
      ({ st with
          sync_playpoints := ainsert st.sync_playpoints client.player_id [],
          do_not_resync_before :=
            ainsert st.do_not_resync_before client.player_id (now + 2) },
       [.strm client.player_id 'a' ⌊delta⌋])
    else
      ({ st with
          sync_playpoints := ainsert st.sync_playpoints client.player_id [],
          do_not_resync_before :=
            ainsert st.do_not_resync_before client.player_id (now + delta / 1000 + 2) },
       [.strm client.player_id 'p' ⌊delta⌋])

/-- Source _handle_client_sync, the drift controller step run on a
follower heartbeat.  Every time.time() call of one handler run is
modelled as the single instant now. -/
def handle_client_sync (env : Env) (now : ℚ) (st : PState) (client : SlimClient) :
    PState × List Effect :=
  match alookup st.players client.player_id with
  | none => (st, [])
  | some player =>
  match player.synced_to with
  | none => (st, [])
  | some sync_master_id =>
  match alookup st.socket_clients sync_master_id with
  | none => (st, [])
  | some sync_master =>
  if sync_master.state ≠ .playing then (st, [])
  else if client.state ≠ .playing then (st, [])
  else
    let backoff_time := (alookup st.do_not_resync_before client.player_id).getD 0
    if backoff_time ≠ 0 ∧ now < backoff_time then (st, [])
    else
      let ring0 := (alookup st.sync_playpoints client.player_id).getD []
      let stR :=
        if (alookup st.sync_playpoints client.player_id).isSome then st
        else { st with sync_playpoints := ainsert st.sync_playpoints client.player_id [] }
      match env.multi_client_jobs (env.active_queue client.player_id) with
      | none => (stR, [])
      | some stream_job => driftStep env now stR client sync_master stream_job ring0

/-- Ready test inside the buffer-ready poll: every resolved group client
reports buffer-ready (childs_total equals childs_ready). -/
def allChildsReady (st : PState) (player_id : String) : Bool :=
  (getSyncClients st player_id).all (fun c => c.state = .bufferReady)

/-- The poll loop of _handle_buffer_ready as written: while count is below
40, break when all childs are ready, otherwise sleep 100 ms.  The body
never changes count.  The result is the number of sleeps before the loop
exited, or none when the fuel ran out before it did. -/
def bufferReadyPoll (ready : Bool) (count : Nat) (fuel : Nat) : Option Nat :=
  match fuel with
  | 0 => none
  | fuel' + 1 =>
    if count < 40 then
      if ready then some 0
      else (bufferReadyPoll ready count fuel').map (fun n => n + 1)
    else some 0

/-- Post-loop fan-out of _handle_buffer_ready: send every group client an
unpause-at of its own jiffies plus 20 and record a one second resync
backoff for it. -/
def startClients (now : ℚ) (st : PState) (cs : List SlimClient) (effs : List Effect) :
    PState × List Effect :=
  match cs with
  | [] => (st, effs)
  | c :: rest =>
    startClients now
      { st with do_not_resync_before := ainsert st.do_not_resync_before c.player_id (now + 1) }
      rest (effs ++ [.strm c.player_id 'u' (c.jiffies + 20 : Int)])

/-- Outcome of the buffer-ready handler: normal completion, a poll loop
that never exited within the given fuel, or the unreachable crash on an
unregistered player. -/
inductive BufReadyRes
  | done (st : PState) (effects : List Effect)
  | stuck
  | crash
deriving DecidableEq, Repr

/-- Source _handle_buffer_ready: a follower defers to its master; a
player without followers is simply told to play; a group leader polls for
its group and then fans out the coordinated unpause-at start. -/
def handle_buffer_ready (fuel : Nat) (now : ℚ) (st : PState) (client : SlimClient) :
    BufReadyRes :=
  match alookup st.players client.player_id with
  | none => .crash
  | some player =>
    if player.synced_to.isSome then .done st []
    else if player.group_childs = [] then .done st [clientPlay client]
    else
      match bufferReadyPoll (allChildsReady st client.player_id) 0 fuel with
      | none => .stuck
      | some _ =>
        let r := startClients now st (getSyncClients st client.player_id) []
        .done r.1 r.2

/-- Fresh Player record built by _handle_player_update for an unknown
player id.  Modelled from the spec for the fields the constructor leaves
at their defaults: a new player has no leader, no followers and idle
transport state. -/
def newPlayer (c : SlimClient) : Player :=
  { player_id := c.player_id
    available := true
    name := c.name
    powered := c.powered
    state := .idle
    volume_level := 0
    volume_muted := false
    current_url := none
    can_sync_with := []
    synced_to := none
    group_childs := [] }

/-- Source _handle_player_update: create the player if needed, then
refresh its mirrored attributes, volume_muted as powered AND muted, and
can_sync_with as all other connected client ids; finally push an update. -/
def handle_player_update (st : PState) (client : SlimClient) : PState × List Effect :=
  let pid := client.player_id
  let base := (alookup st.players pid).getD (newPlayer client)
  let p :=
    { base with
      available := true
      current_url := client.current_url
      name := client.name
      powered := client.powered
      state := STATE_MAP client.state
      volume_level := client.volume_level
      volume_muted := client.powered && client.muted
      can_sync_with :=
        (st.socket_clients.map (fun kv => kv.2.player_id)).filter (fun x => x ≠ pid) }
  ({ st with players := ainsert st.players pid p }, [.playerUpdate pid])

/-- Loop of _handle_connected over the connected clients: refresh every
player other than the newly connected one so its can_sync_with is
recomputed. -/
def updateOthers (pid : String) (st : PState) (cs : List (String × SlimClient))
    (effs : List Effect) : PState × List Effect :=
  match cs with
  | [] => (st, effs)
  | kv :: rest =>
    if kv.2.player_id = pid then updateOthers pid st rest effs
    else
      let r := handle_player_update st kv.2
      updateOthers pid r.1 rest (effs ++ r.2)

/-- State after the incumbent-eviction step of _handle_connected: if a
socket client with the same player id is present it is popped first. -/
def connState (st : PState) (client : SlimClient) : PState :=
  match alookup st.socket_clients client.player_id with
  | some _ => { st with socket_clients := aerase st.socket_clients client.player_id }
  | none => st

/-- State of _handle_connected once the new client is stored in the
socket-client map. -/
def connState2 (st : PState) (client : SlimClient) : PState :=
  { connState st client with
    socket_clients :=
      ainsert (connState st client).socket_clients client.player_id client }

/-- Source _handle_connected: evict an incumbent session with the same
player id (disconnecting it), store the new client, refresh the new
player and then every other player, then restore the cached (or default)
power and volume. -/
def handle_connected (st : PState) (client : SlimClient)
    (cached : Option (Bool × Int)) : PState × List Effect :=
  let pid := client.player_id
  let evict_effs : List Effect :=
    match alookup st.socket_clients pid with
    | some _ => [Effect.disconnect pid]
    | none => []
  let st2 := connState2 st client
  let r1 := handle_player_update st2 client
  let r2 := updateOthers pid r1.1 st2.socket_clients r1.2
  let init :=
    match cached with
    | some s => s
    | none => (false, (20 : Int))
  (r2.1, evict_effs ++ r2.2 ++ [.powerCmd pid init.1, .volumeCmd pid init.2])

/-- Source _handle_disconnected: pop the socket client, persist its last
power and volume, and mark the player unavailable.  The can_sync_with
fields of the remaining players are not touched. -/
def handle_disconnected (st : PState) (player_id : String) : PState × List Effect :=
  let popped :=
    match alookup st.socket_clients player_id with
    | some c => ({ st with socket_clients := aerase st.socket_clients player_id },
                 [Effect.cacheSet player_id c.powered c.volume_level])
    | none => (st, ([] : List Effect))
  match alookup popped.1.players player_id with
  | some p =>
    ({ popped.1 with
        players := ainsert popped.1.players player_id { p with available := false } },
     popped.2 ++ [.playerUpdate player_id])
  | none => popped

/-- The players table produced by cmd_sync on child cid and leader tid
(with mid the leader id written into the child): the leader and the child
are added to the leader follower set and the child points at the leader. -/
def syncPlayersAfter (players : List (String × Player)) (tid cid mid : String) :
    List (String × Player) :=
  aupdate
    (aupdate players tid
      (fun p => { p with group_childs := setAdd (setAdd p.group_childs p.player_id) cid }))
    cid (fun p => { p with synced_to := some mid })

/-- Extract the synced_to field of a player after a sync command (none
when the command failed or the player is unknown). -/
def syncedToAfter (r : Except String (PState × List Effect)) (pid : String) :
    Option (Option String) :=
  match r with
  | .ok (st, _) => (alookup st.players pid).map Player.synced_to
  | .error _ => none

/-- The set of connected player ids other than pid, as computed by the
player update handler for the can_sync_with field. -/
def canSyncTarget (sc : List (String × SlimClient)) (pid : String) : List String :=
  (sc.map (fun kv => kv.2.player_id)).filter (fun x => x ≠ pid)

/-- The can_sync_with field of the player stored for pid equals the other
connected client ids. -/
def canSyncOk (st : PState) (pid : String) : Prop :=
  ∃ p, alookup st.players pid = some p ∧
    p.can_sync_with = canSyncTarget st.socket_clients pid

/-- Concrete socket client fixture. -/
def mkClient (pid : String) (s : SlimPlayerState) (elapsed : Int) (jiff : Nat) : SlimClient :=
  { player_id := pid
    name := pid
    powered := true
    muted := false
    volume_level := 50
    state := s
    jiffies := jiff
    elapsed_milliseconds := elapsed
    current_url := none }

/-- Concrete player fixture. -/
def mkPlayer (pid : String) (s : PlayerState) (synced : Option String)
    (childs : List String) (canSync : List String) : Player :=
  { player_id := pid
    available := true
    name := pid
    powered := true
    state := s
    volume_level := 50
    volume_muted := false
    current_url := none
    can_sync_with := canSync
    synced_to := synced
    group_childs := childs }

/-- Concrete stream job fixture. -/
def exJob : StreamJob :=
  { job_id := "job1"
    pending := false
    running := false
    client_seconds_skipped := fun _ => 0
    resolve_url := fun pid => "http://srv/" ++ pid }

/-- Concrete environment fixture: every player maps to its own queue, a
single stream job, no per-player sync delay. -/
def exEnv : Env :=
  { active_queue := fun pid => pid
    multi_client_jobs := fun _ => some exJob
    sync_adjust := fun _ => 0 }

/-- C1 fixture: leader l buffer-ready with follower f stuck buffering. -/
def exStC1 : PState :=
  { socket_clients := [("l", mkClient "l" .bufferReady 0 500), ("f", mkClient "f" .buffering 0 600)]
    players := [("l", mkPlayer "l" .playing none ["l", "f"] ["f"]),
                ("f", mkPlayer "f" .playing (some "l") [] ["l"])]
    sync_playpoints := []
    do_not_resync_before := [] }

/-- C2 fixture: one lone idle player a. -/
def exStC2a : PState :=
  { socket_clients := []
    players := [("a", mkPlayer "a" .idle none [] [])]
    sync_playpoints := []
    do_not_resync_before := [] }

/-- C2 fixture: x free, b already synced to leader c. -/
def exStC2b : PState :=
  { socket_clients := []
    players := [("x", mkPlayer "x" .idle none [] []),
                ("b", mkPlayer "b" .idle (some "c") [] []),
                ("c", mkPlayer "c" .idle none ["c", "b"] [])]
    sync_playpoints := []
    do_not_resync_before := [] }

/-- C3 fixture follower client: 10 ms behind the master. -/
def exC3FollowerA : SlimClient := mkClient "f" .playing 1000 0

/-- C3 fixture: three fresh playpoints with diff 10 for follower f of
master m, both playing, master 10 ms ahead. -/
def exStC3a : PState :=
  { socket_clients := [("m", mkClient "m" .playing 1010 0), ("f", exC3FollowerA)]
    players := [("m", mkPlayer "m" .playing none ["m", "f"] ["f"]),
                ("f", mkPlayer "f" .playing (some "m") [] ["m"])]
    sync_playpoints := [("f", [⟨1, "job1", 10⟩, ⟨2, "job1", 10⟩, ⟨3, "job1", 10⟩])]
    do_not_resync_before := [] }

/-- C3 fixture follower client: 9 ms behind the master. -/
def exC3FollowerB : SlimClient := mkClient "f" .playing 1001 0

/-- C3 fixture: three fresh playpoints with diff 9, master 9 ms ahead. -/
def exStC3b : PState :=
  { socket_clients := [("m", mkClient "m" .playing 1010 0), ("f", exC3FollowerB)]
    players := [("m", mkPlayer "m" .playing none ["m", "f"] ["f"]),
                ("f", mkPlayer "f" .playing (some "m") [] ["m"])]
    sync_playpoints := [("f", [⟨1, "job1", 9⟩, ⟨2, "job1", 9⟩, ⟨3, "job1", 9⟩])]
    do_not_resync_before := [] }

/-- C4 fixture follower client. -/
def exC4Follower : SlimClient := mkClient "f" .playing 1000 0

/-- C4 fixture: one stale playpoint (timestamp 0, heartbeat at 20). -/
def exStC4 : PState :=
  { socket_clients := [("m", mkClient "m" .playing 1000 0), ("f", exC4Follower)]
    players := [("m", mkPlayer "m" .playing none ["m", "f"] ["f"]),
                ("f", mkPlayer "f" .playing (some "m") [] ["m"])]
    sync_playpoints := [("f", [⟨0, "job1", 5⟩])]
    do_not_resync_before := [] }

/-- C5 fixture: two connected players with mutually correct can_sync_with. -/
def exStC5 : PState :=
  { socket_clients := [("a", mkClient "a" .playing 0 0), ("b", mkClient "b" .playing 0 0)]
    players := [("a", mkPlayer "a" .playing none [] ["b"]),
                ("b", mkPlayer "b" .playing none [] ["a"])]
    sync_playpoints := []
    do_not_resync_before := [] }

/-- C6 fixture: follower f (synced to l) with a playing socket client. -/
def exStC6 : PState :=
  { socket_clients := [("f", mkClient "f" .playing 0 0)]
    players := [("f", mkPlayer "f" .playing (some "l") [] ["l"])]
    sync_playpoints := []
    do_not_resync_before := [] }

/-- C6 fixture: follower f with a paused socket client. -/
def exStC6b : PState :=
  { socket_clients := [("f", mkClient "f" .paused 0 0)]
    players := [("f", mkPlayer "f" .paused (some "l") [] ["l"])]
    sync_playpoints := []
    do_not_resync_before := [] }

/-- C7 fixture client: the solo player just before play_url (stopped). -/
def exC7Stopped : SlimClient := mkClient "a" .stopped 0 0

/-- C7 fixture: one registered solo player, no sync group, stopped. -/
def exStC7 : PState :=
  { socket_clients := [("a", exC7Stopped)]
    players := [("a", mkPlayer "a" .idle none [] [])]
    sync_playpoints := []
    do_not_resync_before := [] }

/-- C7 fixture client: the solo player at the STMl (buffer ready) event. -/
def exC7Ready : SlimClient := mkClient "a" .bufferReady 0 0

/-- C7 fixture: the solo player once its buffer is ready. -/
def exStC7b : PState :=
  { socket_clients := [("a", exC7Ready)]
    players := [("a", mkPlayer "a" .playing none [] [])]
    sync_playpoints := []
    do_not_resync_before := [] }

/-- C8 fixture: two free players a and b with idle leader. -/
def exStC8 : PState :=
  { socket_clients := [("a", mkClient "a" .stopped 0 0), ("b", mkClient "b" .stopped 0 0)]
    players := [("a", mkPlayer "a" .idle none [] ["b"]),
                ("b", mkPlayer "b" .idle none [] ["a"])]
    sync_playpoints := []
    do_not_resync_before := [] }

theorem alookup_ainsert_self {α : Type} (l : List (String × α)) (k : String) (v : α) :
    alookup (ainsert l k v) k = some v := by
  induction l with
  | nil => simp [ainsert, alookup]
  | cons kv rest ih =>
    by_cases h : kv.1 = k
    · simp [ainsert, alookup, h]
    · simp [ainsert, alookup, h, ih]

theorem alookup_ainsert_ne {α : Type} (l : List (String × α)) (k k' : String) (v : α)
    (h : k' ≠ k) : alookup (ainsert l k v) k' = alookup l k' := by
  induction l with
  | nil => simp [ainsert, alookup, Ne.symm h]
  | cons kv rest ih =>
    by_cases hk : kv.1 = k
    · simp [ainsert, alookup, hk, Ne.symm h]
    · simp [ainsert, alookup, hk, ih]

theorem alookup_aupdate_self {α : Type} (l : List (String × α)) (k : String) (f : α → α) :
    alookup (aupdate l k f) k = (alookup l k).map f := by
  induction l with
  | nil => simp [aupdate, alookup]
  | cons kv rest ih =>
    by_cases h : kv.1 = k
    · simp [aupdate, alookup, h]
    · simp [aupdate, alookup, h, ih]

theorem alookup_aupdate_ne {α : Type} (l : List (String × α)) (k k' : String) (f : α → α)
    (h : k' ≠ k) : alookup (aupdate l k f) k' = alookup l k' := by
  induction l with
  | nil => simp [aupdate, alookup]
  | cons kv rest ih =>
    by_cases hk : kv.1 = k
    · simp [aupdate, alookup, hk, Ne.symm h, ih]
    · simp [aupdate, alookup, hk, ih]

theorem mem_setAdd_self (l : List String) (x : String) : x ∈ setAdd l x := by
  by_cases h : x ∈ l <;> simp [setAdd, h]

theorem mem_setAdd_of_mem (l : List String) (x y : String) (h : y ∈ l) :
    y ∈ setAdd l x := by
  by_cases hx : x ∈ l <;> simp [setAdd, hx, h]

theorem stopClients_players (cs : List SlimClient) (st : PState) (effs : List Effect) :
    (stopClients st cs effs).1.players = st.players := by
  induction cs generalizing st effs with
  | nil => rfl
  | cons c rest ih =>
    by_cases h : c.state = .stopped
    · simp [stopClients, h, ih]
    · simp [stopClients, h, ih]

theorem cmd_stop_players (st : PState) (pid : String) :
    (cmd_stop st pid).1.players = st.players :=
  stopClients_players _ _ _

theorem stopClients_sync_playpoints (cs : List SlimClient) (st : PState) (effs : List Effect) :
    (stopClients st cs effs).1.sync_playpoints = st.sync_playpoints := by
  induction cs generalizing st effs with
  | nil => rfl
  | cons c rest ih =>
    by_cases h : c.state = .stopped
    · simp [stopClients, h, ih]
    · simp [stopClients, h, ih]

theorem stopClients_backoffs (cs : List SlimClient) (st : PState) (effs : List Effect) :
    (stopClients st cs effs).1.do_not_resync_before = st.do_not_resync_before := by
  induction cs generalizing st effs with
  | nil => rfl
  | cons c rest ih =>
    by_cases h : c.state = .stopped
    · simp [stopClients, h, ih]
    · simp [stopClients, h, ih]

theorem player_eta_synced (p : Player) (h : p.synced_to = none) :
    ({ p with synced_to := none } : Player) = p := by
  cases p
  simp_all

theorem player_eta_childs (p : Player) (h : p.group_childs = []) :
    ({ p with group_childs := [] } : Player) = p := by
  cases p
  simp_all

/-- C10: every player update forwarded to the player manager reports
volume_muted as the conjunction of the client powered and muted flags, so
a powered-off player is never reported as muted. -/
theorem c10_volume_muted_is_powered_and_muted (st : PState) (client : SlimClient) :
    ∃ p, alookup (handle_player_update st client).1.players client.player_id = some p ∧
      p.volume_muted = (client.powered && client.muted) ∧
      (client.powered = false → p.volume_muted = false) := by
  refine ⟨_, alookup_ainsert_self _ _ _, rfl, fun h => ?_⟩
  show (client.powered && client.muted) = false
  simp [h]

/-- The poll loop of the buffer-ready handler never exits on its own when
the group is not ready, because its counter is never incremented. -/
theorem bufferReadyPoll_never_ready (fuel count : Nat) (h : count < 40) :
    bufferReadyPoll false count fuel = none := by
  induction fuel with
  | zero => rfl
  | succ fuel ih => simp [bufferReadyPoll, h, ih]

/-- The buffer-ready handler of a leader whose group is not fully
buffer-ready never completes, whatever fuel the poll loop is given. -/
theorem handle_buffer_ready_stuck (fuel : Nat) (now : ℚ) (st : PState)
    (client : SlimClient) (player : Player)
    (hp : alookup st.players client.player_id = some player)
    (hsync : player.synced_to = none) (hchilds : player.group_childs ≠ [])
    (hready : allChildsReady st client.player_id = false) :
    handle_buffer_ready fuel now st client = .stuck := by
  unfold handle_buffer_ready
  rw [hp]
  simp only [hsync, Option.isSome_none, Bool.false_eq_true, if_false, hchilds, ite_false,
    hready, if_neg]
  rw [bufferReadyPoll_never_ready fuel 0 (by norm_num)]

/-- C1: the buffer-coordinated start handler is claimed to wait at most
4 seconds (40 polls of 100 ms); in the source the loop counter is never
incremented, so on a leader whose follower never reports buffer-ready the
handler polls forever and never reaches the unpause-at fan-out, for every
number of polls granted to it. -/
theorem c1_buffer_ready_poll_never_times_out :
    ∀ fuel : Nat,
      handle_buffer_ready fuel 0 exStC1 (mkClient "l" .bufferReady 0 500) = .stuck := by
  intro fuel
  exact handle_buffer_ready_stuck fuel 0 exStC1 _ (mkPlayer "l" .playing none ["l", "f"] ["f"])
    (by decide) (by decide) (by decide) (by decide)

/-- C6 counterexample: stop, play and pause invoked directly on a player
whose synced_to is non-null are executed on that follower (the frame is
sent) instead of being rejected. -/
theorem c6_counterexample :
    (cmd_stop exStC6 "f").2 = [Effect.strm "f" 'q' 0] ∧
    cmd_play exStC6b "f" = [Effect.strm "f" 'u' 0] ∧
    cmd_pause exStC6 "f" = [Effect.strm "f" 'p' 0] := by
  decide

/-- cmd_stop on a player without followers whose own client is active:
one stop frame is sent and the client is marked stopped. -/
theorem cmd_stop_single_active (st : PState) (pid : String) (p : Player) (c : SlimClient)
    (hp : alookup st.players pid = some p) (hchilds : p.group_childs = [])
    (hc : alookup st.socket_clients pid = some c) (hcid : c.player_id = pid)
    (hcs : c.state ≠ .stopped) :
    cmd_stop st pid =
      ({ st with socket_clients := aupdate st.socket_clients pid processStatStmu },
       [Effect.strm pid 'q' 0]) := by
  unfold cmd_stop getSyncClients syncClientIds
  rw [hp]
  simp [hchilds, hc, stopClients, hcs, clientStop, hcid]

/-- cmd_stop on a player without followers whose own client is already
stopped: nothing is sent and nothing changes. -/
theorem cmd_stop_single_stopped (st : PState) (pid : String) (p : Player) (c : SlimClient)
    (hp : alookup st.players pid = some p) (hchilds : p.group_childs = [])
    (hc : alookup st.socket_clients pid = some c) (hcs : c.state = .stopped) :
    cmd_stop st pid = (st, []) := by
  unfold cmd_stop getSyncClients syncClientIds
  rw [hp]
  simp [hchilds, hc, stopClients, hcs]

/-- C6 amended: of the transport commands, only play_url and stream-job
play reject a synced (follower) player; stop is not rejected and executes
on the follower itself (play and pause likewise execute, see the
counterexample). -/
theorem c6_amended_only_play_commands_rejected (st : PState) (pid url : String)
    (job : StreamJob) (p : Player) (c : SlimClient)
    (hp : alookup st.players pid = some p) (hsync : p.synced_to.isSome = true)
    (hchilds : p.group_childs = [])
    (hc : alookup st.socket_clients pid = some c) (hcid : c.player_id = pid)
    (hcs : c.state ≠ .stopped) :
    (cmd_play_url st pid url).error.isSome = true ∧
    (cmd_handle_stream_job st pid job).error.isSome = true ∧
    (cmd_stop st pid).2 = [Effect.strm pid 'q' 0] := by
  have hstop := cmd_stop_single_active st pid p c hp hchilds hc hcid hcs
  refine ⟨?_, ?_, by rw [hstop]⟩
  · unfold cmd_play_url
    rw [hstop]
    simp only []
    rw [hp]
    simp [hsync]
  · unfold cmd_handle_stream_job
    rw [hstop]
    simp only []
    rw [hp]
    simp [hsync]

/-- C6 amended witness at a concrete follower. -/
theorem c6_amended_witness :
    (cmd_play_url exStC6 "f" "http://x").error.isSome = true ∧
    (cmd_handle_stream_job exStC6 "f" exJob).error.isSome = true ∧
    (cmd_stop exStC6 "f").2 = [Effect.strm "f" 'q' 0] :=
  c6_amended_only_play_commands_rejected exStC6 "f" "http://x" exJob
    (mkPlayer "f" .playing (some "l") [] ["l"]) (mkClient "f" .playing 0 0)
    (by decide) (by decide) (by decide) (by decide) (by decide) (by decide)

/-- C9: play_url and stream-job play on a synced player raise only after
the stop has already been fanned out: the command reports an error, yet
the only effect performed is the stop frame to the follower and the
follower client has been marked stopped in the resulting state. -/
theorem c9_rejection_not_atomic (st : PState) (pid url : String) (job : StreamJob)
    (p : Player) (c : SlimClient)
    (hp : alookup st.players pid = some p) (hsync : p.synced_to.isSome = true)
    (hchilds : p.group_childs = [])
    (hc : alookup st.socket_clients pid = some c) (hcid : c.player_id = pid)
    (hcs : c.state ≠ .stopped) :
    ((cmd_play_url st pid url).error.isSome = true ∧
     (cmd_play_url st pid url).effects = [Effect.strm pid 'q' 0] ∧
     (alookup (cmd_play_url st pid url).st.socket_clients pid).map SlimClient.state =
       some .stopped) ∧
    ((cmd_handle_stream_job st pid job).error.isSome = true ∧
     (cmd_handle_stream_job st pid job).effects = [Effect.strm pid 'q' 0] ∧
     (alookup (cmd_handle_stream_job st pid job).st.socket_clients pid).map
       SlimClient.state = some .stopped) := by
  have hstop := cmd_stop_single_active st pid p c hp hchilds hc hcid hcs
  have hupd : (alookup (aupdate st.socket_clients pid processStatStmu) pid).map
      SlimClient.state = some .stopped := by
    rw [alookup_aupdate_self, hc]
    rfl
  constructor
  · unfold cmd_play_url
    rw [hstop]
    simp only []
    rw [hp]
    simp [hsync, hupd]
  · unfold cmd_handle_stream_job
    rw [hstop]
    simp only []
    rw [hp]
    simp [hsync, hupd]

/-- C9 witness at a concrete follower. -/
theorem c9_witness :
    (cmd_play_url exStC6 "f" "http://x").error.isSome = true ∧
    (cmd_play_url exStC6 "f" "http://x").effects = [Effect.strm "f" 'q' 0] ∧
    (alookup (cmd_play_url exStC6 "f" "http://x").st.socket_clients "f").map
      SlimClient.state = some .stopped :=
  (c9_rejection_not_atomic exStC6 "f" "http://x" exJob
    (mkPlayer "f" .playing (some "l") [] ["l"]) (mkClient "f" .playing 0 0)
    (by decide) (by decide) (by decide) (by decide) (by decide) (by decide)).1

/-- C7 counterexample: when the solo autostart player reports STMl, the
buffer-ready handler does send a further frame — the session play
(unpause) command — contradicting the claim that no further frame is
sent. -/
theorem c7_counterexample :
    handle_buffer_ready 1 0 exStC7b exC7Ready =
      .done exStC7b [Effect.strm "a" 'u' 0] := by
  decide

/-- C7 amended: play_url on a single ungrouped player sends exactly one
strm s frame with autostart set; when the client then reports buffer
ready the handler sends it exactly one session play (strm u unpause)
frame, redundant because autostart already set rendering in motion. -/
theorem c7_amended_solo_play (st st2 : PState) (pid url : String) (p p2 : Player)
    (c c2 : SlimClient) (fuel : Nat) (now : ℚ)
    (hp : alookup st.players pid = some p) (hsync : p.synced_to = none)
    (hchilds : p.group_childs = [])
    (hsock : st.socket_clients = [(pid, c)]) (hcid : c.player_id = pid)
    (hcs : c.state = .stopped)
    (gp : alookup st2.players pid = some p2) (gsync : p2.synced_to = none)
    (gchilds : p2.group_childs = []) (gcid : c2.player_id = pid) :
    cmd_play_url st pid url = ⟨st, [Effect.strmStart pid url true true], none⟩ ∧
    handle_buffer_ready fuel now st2 c2 = .done st2 [Effect.strm pid 'u' 0] := by
  constructor
  · have hc : alookup st.socket_clients pid = some c := by
      rw [hsock]
      simp [alookup]
    have hstop := cmd_stop_single_stopped st pid p c hp hchilds hc hcs
    unfold cmd_play_url
    rw [hstop]
    simp only []
    rw [hp]
    unfold getSyncClients syncClientIds
    rw [hp]
    simp [hsync, hchilds, hc, handle_play_url, hcid]
  · unfold handle_buffer_ready
    rw [gcid, gp]
    simp [gsync, gchilds, clientPlay, gcid]

/-- C7 amended witness at the concrete solo player. -/
theorem c7_amended_witness :
    cmd_play_url exStC7 "a" "http://x/y.flac" =
      ⟨exStC7, [Effect.strmStart "a" "http://x/y.flac" true true], none⟩ ∧
    handle_buffer_ready 5 0 exStC7b exC7Ready = .done exStC7b [Effect.strm "a" 'u' 0] :=
  c7_amended_solo_play exStC7 exStC7b "a" "http://x/y.flac"
    (mkPlayer "a" .idle none [] []) (mkPlayer "a" .playing none [] [])
    exC7Stopped exC7Ready 5 0
    (by decide) rfl rfl rfl rfl rfl (by decide) rfl rfl rfl

/-- C2 counterexample: cmd_sync with child equal to leader is not a no-op
(the player ends up synced to itself), and cmd_sync onto a leader that
itself has a non-null leader succeeds and establishes the link instead of
failing. -/
theorem c2_counterexample :
    ((alookup exStC2a.players "a").map Player.synced_to = some none ∧
     syncedToAfter (cmd_sync exEnv exStC2a "a" "a") "a" = some (some "a")) ∧
    ((alookup exStC2b.players "b").map Player.synced_to = some (some "c") ∧
     syncedToAfter (cmd_sync exEnv exStC2b "x" "b") "x" = some (some "b")) := by
  decide

/-- C2 amended: both players must exist (enforced by assertions); but if
child equals leader the operation is not a no-op — the player is added to
its own follower set and marked synced to itself — and no transitive-sync
check exists: when both players exist the link is always established,
even when the designated leader already has a leader. -/
theorem c2_amended_sync_behavior (env : Env) (st : PState) (cid tid : String) :
    ((alookup st.players cid = none → ∃ e, cmd_sync env st cid tid = .error e) ∧
     (∀ pc, alookup st.players cid = some pc → alookup st.players tid = none →
        ∃ e, cmd_sync env st cid tid = .error e)) ∧
    (∀ pc pt, alookup st.players cid = some pc → alookup st.players tid = some pt →
       pc.player_id = cid → pt.player_id = tid →
       ∃ st' effs, cmd_sync env st cid tid = .ok (st', effs) ∧
         (alookup st'.players cid).map Player.synced_to = some (some tid) ∧
         ∃ pt', alookup st'.players tid = some pt' ∧
           tid ∈ pt'.group_childs ∧ cid ∈ pt'.group_childs) := by
  refine ⟨⟨?_, ?_⟩, ?_⟩
  · intro hc
    unfold cmd_sync
    rw [hc]
    exact ⟨_, rfl⟩
  · intro pc hc ht
    unfold cmd_sync
    rw [hc, ht]
    exact ⟨_, rfl⟩
  · intro pc pt hc ht hpc hpt
    unfold cmd_sync
    rw [hc, ht]
    refine ⟨_, _, rfl, ?_, ?_⟩
    · by_cases hct : cid = tid
      · subst hct
        have hpp : pc = pt := by
          rw [hc] at ht
          exact Option.some.inj ht
        subst hpp
        simp only [hpc, alookup_aupdate_self, hc, Option.map_some']
      · simp only [hpc, alookup_aupdate_self,
          alookup_aupdate_ne _ tid cid _ hct, hc, Option.map_some']
        rw [hpt]
    · by_cases hct : cid = tid
      · subst hct
        have hpp : pc = pt := by
          rw [hc] at ht
          exact Option.some.inj ht
        subst hpp
        simp only [hpc, alookup_aupdate_self, hc, Option.map_some']
        refine ⟨_, rfl, ?_, ?_⟩
        · exact mem_setAdd_of_mem _ _ _ (mem_setAdd_self _ _)
        · exact mem_setAdd_self _ _
      · simp only [hpc, hpt, alookup_aupdate_ne _ cid tid _ (fun he => hct he.symm),
          alookup_aupdate_self, ht, Option.map_some']
        refine ⟨_, rfl, ?_, ?_⟩
        · exact mem_setAdd_of_mem _ _ _ (mem_setAdd_self _ _)
        · exact mem_setAdd_self _ _

/-- C2 amended witness: a concrete self-sync and a concrete transitive
sync, both established by the command. -/
theorem c2_amended_witness :
    ∃ st' effs, cmd_sync exEnv exStC2b "x" "b" = .ok (st', effs) ∧
      (alookup st'.players "x").map Player.synced_to = some (some "b") ∧
      ∃ pt', alookup st'.players "b" = some pt' ∧
        "b" ∈ pt'.group_childs ∧ "x" ∈ pt'.group_childs :=
  (c2_amended_sync_behavior exEnv exStC2b "x" "b").2
    (mkPlayer "x" .idle none [] []) (mkPlayer "b" .idle (some "c") [] [])
    (by decide) (by decide) rfl rfl

/-- When a follower heartbeat passes all preconditions of the drift
controller (synced, master connected, both playing, no backoff, a stream
job and an existing ring), the handler reduces to the drift step on the
current ring. -/
theorem handle_client_sync_eq_driftStep (env : Env) (now : ℚ) (st : PState)
    (client : SlimClient) (player : Player) (mid : String) (sync_master : SlimClient)
    (job : StreamJob) (ring0 : List SyncPlayPoint)
    (hp : alookup st.players client.player_id = some player)
    (hsync : player.synced_to = some mid)
    (hm : alookup st.socket_clients mid = some sync_master)
    (hms : sync_master.state = .playing) (hcs : client.state = .playing)
    (hback : ¬ ((alookup st.do_not_resync_before client.player_id).getD 0 ≠ 0 ∧
        now < (alookup st.do_not_resync_before client.player_id).getD 0))
    (hjob : env.multi_client_jobs (env.active_queue client.player_id) = some job)
    (hring : alookup st.sync_playpoints client.player_id = some ring0) :
    handle_client_sync env now st client =
      driftStep env now st client sync_master job ring0 := by
  unfold handle_client_sync
  rw [hp]
  simp only [hsync, hm, hms, hcs, hjob, hring, ne_eq, not_true, if_false, ite_false,
    Option.getD_some, Option.isSome_some, if_true, ite_true, if_neg hback]

/-- C4 counterexample: on a heartbeat whose most recent prior playpoint is
stale, the handler clears the ring but still appends the current
playpoint — the ring afterwards holds the new sample, contradicting the
claimed clear-and-return. -/
theorem c4_counterexample :
    alookup (handle_client_sync exEnv 20 exStC4 exC4Follower).1.sync_playpoints "f" =
      some [⟨20, "job1", 0⟩] ∧
    (handle_client_sync exEnv 20 exStC4 exC4Follower).2 = [] := by
  rw [handle_client_sync_eq_driftStep exEnv 20 exStC4 exC4Follower
    (mkPlayer "f" .playing (some "m") [] ["m"]) "m" (mkClient "m" .playing 1000 0) exJob
    [⟨0, "job1", 5⟩] (by decide) rfl (by decide) rfl rfl (by decide) rfl (by decide)]
  unfold driftStep
  norm_num [dequeAppend, MIN_REQ_PLAYPOINTS, newPlaypoint, corrected_elapsed_ms, exEnv,
    exJob, mkClient, exC4Follower, alookup_ainsert_self]

/-- C4 amended: a stale or job-mismatched last playpoint invalidates the
ring, which is cleared, but the handler does not return — the current
playpoint is still appended, so the ring afterwards holds exactly the new
sample, and no correction is evaluated on that heartbeat because the ring
is below the four-sample minimum. -/
theorem c4_amended_invalidation_still_appends (env : Env) (now : ℚ) (st : PState)
    (client : SlimClient) (player : Player) (mid : String) (sync_master : SlimClient)
    (job : StreamJob) (ring0 : List SyncPlayPoint) (lp : SyncPlayPoint)
    (hp : alookup st.players client.player_id = some player)
    (hsync : player.synced_to = some mid)
    (hm : alookup st.socket_clients mid = some sync_master)
    (hms : sync_master.state = .playing) (hcs : client.state = .playing)
    (hback : ¬ ((alookup st.do_not_resync_before client.player_id).getD 0 ≠ 0 ∧
        now < (alookup st.do_not_resync_before client.player_id).getD 0))
    (hjob : env.multi_client_jobs (env.active_queue client.player_id) = some job)
    (hring : alookup st.sync_playpoints client.player_id = some ring0)
    (hlast : ring0.getLast? = some lp)
    (hstale : now - lp.timestamp > 10 ∨ lp.sync_job_id ≠ job.job_id) :
    handle_client_sync env now st client =
      ({ st with sync_playpoints := (ainsert st.sync_playpoints client.player_id
          [newPlaypoint env now sync_master client job]) },
       []) := by
  rw [handle_client_sync_eq_driftStep env now st client player mid sync_master job ring0
    hp hsync hm hms hcs hback hjob hring]
  unfold driftStep
  rw [hlast]
  rcases hstale with h | h
  · simp [h, newPlaypoint, dequeAppend, MIN_REQ_PLAYPOINTS]
  · simp [h, newPlaypoint, dequeAppend, MIN_REQ_PLAYPOINTS]

/-- C3: the drift controller on a follower heartbeat with both players
playing and a valid fresh ring: below four playpoints nothing is issued;
at four playpoints the mean is evaluated once; a mean inside the 10 ms
deadband issues nothing and keeps the ring; a mean of at least +10 ms
clears the ring, issues a strm a skip-ahead of the mean magnitude and
backs off for 2 s; a mean of at most -10 ms clears the ring, issues a
strm p pause-for of the mean magnitude and backs off for
mean/1000 + 2 s. -/
theorem c3_drift_correction_policy (env : Env) (now : ℚ) (st : PState)
    (client : SlimClient) (player : Player) (mid : String) (sync_master : SlimClient)
    (job : StreamJob) (ring0 : List SyncPlayPoint)
    (hp : alookup st.players client.player_id = some player)
    (hsync : player.synced_to = some mid)
    (hm : alookup st.socket_clients mid = some sync_master)
    (hms : sync_master.state = .playing) (hcs : client.state = .playing)
    (hback : ¬ ((alookup st.do_not_resync_before client.player_id).getD 0 ≠ 0 ∧
        now < (alookup st.do_not_resync_before client.player_id).getD 0))
    (hjob : env.multi_client_jobs (env.active_queue client.player_id) = some job)
    (hring : alookup st.sync_playpoints client.player_id = some ring0)
    (hfresh : ring0 = [] ∨ ∃ lp, ring0.getLast? = some lp ∧
      now - lp.timestamp ≤ 10 ∧ lp.sync_job_id = job.job_id) :
    ((dequeAppend ring0 (newPlaypoint env now sync_master client job)).length <
        MIN_REQ_PLAYPOINTS →
      handle_client_sync env now st client =
        ({ st with sync_playpoints := (ainsert st.sync_playpoints client.player_id
            (dequeAppend ring0 (newPlaypoint env now sync_master client job))) },
         [])) ∧
    ((dequeAppend ring0 (newPlaypoint env now sync_master client job)).length =
        MIN_REQ_PLAYPOINTS →
      |ringMean (dequeAppend ring0 (newPlaypoint env now sync_master client job))| <
        MIN_DEVIATION_ADJUST →
      handle_client_sync env now st client =
        ({ st with sync_playpoints := (ainsert st.sync_playpoints client.player_id
            (dequeAppend ring0 (newPlaypoint env now sync_master client job))) },
         [])) ∧
    ((dequeAppend ring0 (newPlaypoint env now sync_master client job)).length =
        MIN_REQ_PLAYPOINTS →
      MIN_DEVIATION_ADJUST ≤
        ringMean (dequeAppend ring0 (newPlaypoint env now sync_master client job)) →
      handle_client_sync env now st client =
        ({ st with
            sync_playpoints := (ainsert st.sync_playpoints client.player_id []),
            do_not_resync_before := (ainsert st.do_not_resync_before client.player_id
              (now + 2)) },
         [Effect.strm client.player_id 'a'
            ⌊|ringMean (dequeAppend ring0 (newPlaypoint env now sync_master client job))|⌋])) ∧
    ((dequeAppend ring0 (newPlaypoint env now sync_master client job)).length =
        MIN_REQ_PLAYPOINTS →
      ringMean (dequeAppend ring0 (newPlaypoint env now sync_master client job)) ≤
        -MIN_DEVIATION_ADJUST →
      handle_client_sync env now st client =
        ({ st with
            sync_playpoints := (ainsert st.sync_playpoints client.player_id []),
            do_not_resync_before := (ainsert st.do_not_resync_before client.player_id
              (now +
                |ringMean (dequeAppend ring0 (newPlaypoint env now sync_master client job))| /
                  1000 + 2)) },
         [Effect.strm client.player_id 'p'
            ⌊|ringMean (dequeAppend ring0 (newPlaypoint env now sync_master client job))|⌋])) := by
  have hds := handle_client_sync_eq_driftStep env now st client player mid sync_master job
    ring0 hp hsync hm hms hcs hback hjob hring
  rcases hfresh with hnil | ⟨lp, hl, hf1, hf2⟩
  · subst hnil
    refine ⟨fun h1 => ?_, fun h2 _ => ?_, fun h2 _ => ?_, fun h2 _ => ?_⟩
    · rw [hds]
      unfold driftStep
      simp only [List.getLast?_nil, if_pos h1]
    · simp [dequeAppend, MIN_REQ_PLAYPOINTS] at h2
    · simp [dequeAppend, MIN_REQ_PLAYPOINTS] at h2
    · simp [dequeAppend, MIN_REQ_PLAYPOINTS] at h2
  · have hif1 : ¬ (now - lp.timestamp > 10) := not_lt.mpr hf1
    have hif2 : ¬ (lp.sync_job_id ≠ job.job_id) := by simp [hf2]
    rw [hds]
    unfold driftStep
    simp only [hl, if_neg hif1, if_neg hif2]
    refine ⟨fun h1 => ?_, fun h2 h3 => ?_, fun h2 h3 => ?_, fun h2 h3 => ?_⟩
    · rw [if_pos h1]
    · rw [if_neg (by rw [h2]; exact lt_irrefl _), if_pos h3]
    · have hnotlt : ¬ (|ringMean (dequeAppend ring0
          (newPlaypoint env now sync_master client job))| < MIN_DEVIATION_ADJUST) :=
        not_lt.mpr (le_trans h3 (le_abs_self _))
      have hpos : ringMean (dequeAppend ring0
          (newPlaypoint env now sync_master client job)) > 0 :=
        lt_of_lt_of_le (by norm_num [MIN_DEVIATION_ADJUST]) h3
      rw [if_neg (by rw [h2]; exact lt_irrefl _), if_neg hnotlt, if_pos hpos]
    · have hnotlt : ¬ (|ringMean (dequeAppend ring0
          (newPlaypoint env now sync_master client job))| < MIN_DEVIATION_ADJUST) :=
        not_lt.mpr (le_trans (by simpa using neg_le_neg h3) (neg_le_abs _))
      have hneg : ¬ (ringMean (dequeAppend ring0
          (newPlaypoint env now sync_master client job)) > 0) :=
        not_lt.mpr (le_trans h3 (by norm_num [MIN_DEVIATION_ADJUST]))
      rw [if_neg (by rw [h2]; exact lt_irrefl _), if_neg hnotlt, if_neg hneg]

/-- C3 witness: a mean of exactly +10 ms over four playpoints triggers a
strm a skip-ahead of 10 ms, while a mean of 9 ms (inside the deadband)
triggers nothing. -/
theorem c3_drift_witness :
    (handle_client_sync exEnv 5 exStC3a exC3FollowerA).2 = [Effect.strm "f" 'a' 10] ∧
    (handle_client_sync exEnv 5 exStC3b exC3FollowerB).2 = [] := by
  constructor
  · rw [(c3_drift_correction_policy exEnv 5 exStC3a exC3FollowerA
        (mkPlayer "f" .playing (some "m") [] ["m"]) "m" (mkClient "m" .playing 1010 0) exJob
        [⟨1, "job1", 10⟩, ⟨2, "job1", 10⟩, ⟨3, "job1", 10⟩]
        (by decide) rfl (by decide) rfl rfl (by decide) rfl (by decide)
        (Or.inr ⟨⟨3, "job1", 10⟩, by decide, by norm_num, rfl⟩)).2.2.1
      (by decide)
      (by norm_num [ringMean, dequeAppend, MIN_REQ_PLAYPOINTS, MIN_DEVIATION_ADJUST,
        newPlaypoint, corrected_elapsed_ms, exEnv, exJob, exC3FollowerA, mkClient])]
    norm_num [ringMean, dequeAppend, MIN_REQ_PLAYPOINTS, newPlaypoint,
      corrected_elapsed_ms, exEnv, exJob, exC3FollowerA, mkClient]
  · rw [(c3_drift_correction_policy exEnv 5 exStC3b exC3FollowerB
        (mkPlayer "f" .playing (some "m") [] ["m"]) "m" (mkClient "m" .playing 1010 0) exJob
        [⟨1, "job1", 9⟩, ⟨2, "job1", 9⟩, ⟨3, "job1", 9⟩]
        (by decide) rfl (by decide) rfl rfl (by decide) rfl (by decide)
        (Or.inr ⟨⟨3, "job1", 9⟩, by decide, by norm_num, rfl⟩)).2.1
      (by decide)
      (by norm_num [ringMean, dequeAppend, MIN_REQ_PLAYPOINTS, MIN_DEVIATION_ADJUST,
        newPlaypoint, corrected_elapsed_ms, exEnv, exJob, exC3FollowerB, mkClient])]

/-- cmd_unsync on the follower of a two-member group: the follower loses
its leader, it is removed from the leader follower set, and the group is
dissolved because only the leader itself is left. -/
theorem cmd_unsync_pair (st : PState) (aid bid : String) (pa' pb' : Player)
    (hab : aid ≠ bid)
    (ha : alookup st.players aid = some pa') (hb : alookup st.players bid = some pb')
    (haid : pa'.player_id = aid) (hbid : pb'.player_id = bid)
    (hsync : pa'.synced_to = some bid)
    (hchilds : pb'.group_childs = [bid, aid]) :
    ∃ st2 e2, cmd_unsync st aid = .ok (st2, e2) ∧
      alookup st2.players aid = some { pa' with synced_to := none } ∧
      alookup st2.players bid = some { pb' with group_childs := [] } := by
  have hb3 : alookup (aupdate (aupdate (cmd_stop st aid).1.players aid
      (fun p => { p with synced_to := none })) bid
      (fun p => { p with group_childs := setRemove p.group_childs aid }))
      bid = some { pb' with group_childs := [bid] } := by
    rw [alookup_aupdate_self, alookup_aupdate_ne _ _ _ _ (Ne.symm hab),
      cmd_stop_players, hb]
    simp [setRemove, hchilds, List.erase_cons, Ne.symm hab]
  unfold cmd_unsync
  rw [ha]
  simp only [hsync]
  rw [hb]
  simp only [haid]
  simp only [hb3, hbid]
  simp only [if_true]
  refine ⟨_, _, rfl, ?_, ?_⟩
  · show alookup (aupdate (aupdate (aupdate (cmd_stop st aid).1.players aid _) bid _)
      bid _) aid = _
    rw [alookup_aupdate_ne _ _ _ _ hab, alookup_aupdate_ne _ _ _ _ hab,
      alookup_aupdate_self, cmd_stop_players, ha]
    simp [haid]
  · show alookup (aupdate (aupdate (aupdate (cmd_stop st aid).1.players aid _) bid _)
      bid _) bid = _
    rw [alookup_aupdate_self, hb3]
    simp [setRemove, hbid]

/-- C8: sync(A, B) followed by unsync(A), on two distinct registered
players that are initially in no sync relationship, restores both player
records — in particular A synced_to and B group_childs — exactly; the
leader singleton follower set is dissolved on the way. -/
theorem c8_sync_unsync_roundtrip (env : Env) (st : PState) (aid bid : String)
    (pa pb : Player) (hab : aid ≠ bid)
    (ha : alookup st.players aid = some pa) (hb : alookup st.players bid = some pb)
    (haid : pa.player_id = aid) (hbid : pb.player_id = bid)
    (hasync : pa.synced_to = none) (hachilds : pa.group_childs = [])
    (hbsync : pb.synced_to = none) (hbchilds : pb.group_childs = []) :
    ∃ st1 e1 st2 e2, cmd_sync env st aid bid = .ok (st1, e1) ∧
      cmd_unsync st1 aid = .ok (st2, e2) ∧
      alookup st2.players aid = some pa ∧ alookup st2.players bid = some pb := by
  obtain ⟨e1, hs⟩ : ∃ e1, cmd_sync env st aid bid =
      .ok (({ st with
        players := syncPlayersAfter st.players bid pa.player_id pb.player_id } : PState),
        e1) := by
    unfold cmd_sync syncPlayersAfter
    rw [ha, hb]
    exact ⟨_, rfl⟩
  have hA2 : alookup ({ st with
      players := syncPlayersAfter st.players bid pa.player_id pb.player_id } :
        PState).players aid = some { pa with synced_to := some pb.player_id } := by
    show alookup (syncPlayersAfter st.players bid pa.player_id pb.player_id) aid = _
    unfold syncPlayersAfter
    rw [haid, alookup_aupdate_self, alookup_aupdate_ne _ _ _ _ hab, ha]
    simp [haid]
  have hB2 : alookup ({ st with
      players := syncPlayersAfter st.players bid pa.player_id pb.player_id } :
        PState).players bid = some { pb with group_childs := [bid, aid] } := by
    show alookup (syncPlayersAfter st.players bid pa.player_id pb.player_id) bid = _
    unfold syncPlayersAfter
    rw [haid, alookup_aupdate_ne _ _ _ _ (Ne.symm hab), alookup_aupdate_self, hb]
    simp [hbchilds, setAdd, hbid, haid, hab]
  obtain ⟨st2, e2, hun, hA4, hB4⟩ :=
    cmd_unsync_pair ({ st with
        players := syncPlayersAfter st.players bid pa.player_id pb.player_id } : PState)
      aid bid ({ pa with synced_to := some pb.player_id })
      ({ pb with group_childs := [bid, aid] }) hab hA2 hB2 haid hbid
      (by rw [hbid]) rfl
  refine ⟨_, e1, st2, e2, hs, hun, ?_, ?_⟩
  · rw [hA4]
    exact congrArg some
      (show ({ pa with synced_to := none } : Player) = pa from player_eta_synced pa hasync)
  · rw [hB4]
    exact congrArg some
      (show ({ pb with group_childs := [] } : Player) = pb from player_eta_childs pb hbchilds)

/-- C8 witness at two concrete free players. -/
theorem c8_witness :
    ∃ st1 e1 st2 e2, cmd_sync exEnv exStC8 "a" "b" = .ok (st1, e1) ∧
      cmd_unsync st1 "a" = .ok (st2, e2) ∧
      alookup st2.players "a" = some (mkPlayer "a" .idle none [] ["b"]) ∧
      alookup st2.players "b" = some (mkPlayer "b" .idle none [] ["a"]) :=
  c8_sync_unsync_roundtrip exEnv exStC8 "a" "b"
    (mkPlayer "a" .idle none [] ["b"]) (mkPlayer "b" .idle none [] ["a"])
    (by decide) (by decide) (by decide) rfl rfl rfl rfl rfl rfl

/-- C5 counterexample: after a client disconnects, the surviving player
still lists the departed id in can_sync_with although the departed player
is no longer connected — the invariant does not hold at that quiescent
point. -/
theorem c5_counterexample :
    canSyncTarget (handle_disconnected exStC5 "a").1.socket_clients "b" = [] ∧
    (alookup (handle_disconnected exStC5 "a").1.players "b").map Player.can_sync_with =
      some ["a"] := by
  decide

theorem handle_player_update_socket (st : PState) (c : SlimClient) :
    (handle_player_update st c).1.socket_clients = st.socket_clients := rfl

theorem updateOthers_socket (pid : String) (cs : List (String × SlimClient))
    (st : PState) (effs : List Effect) :
    (updateOthers pid st cs effs).1.socket_clients = st.socket_clients := by
  induction cs generalizing st effs with
  | nil => rfl
  | cons kv rest ih =>
    by_cases h : kv.2.player_id = pid
    · simp [updateOthers, h, ih]
    · simp [updateOthers, h, ih, handle_player_update_socket]

theorem handle_player_update_lookup_self (st : PState) (c : SlimClient) :
    ∃ p, alookup (handle_player_update st c).1.players c.player_id = some p ∧
      p.can_sync_with = canSyncTarget st.socket_clients c.player_id :=
  ⟨_, alookup_ainsert_self _ _ _, rfl⟩

theorem handle_player_update_lookup_ne (st : PState) (c : SlimClient) (k : String)
    (h : k ≠ c.player_id) :
    alookup (handle_player_update st c).1.players k = alookup st.players k := by
  show alookup (ainsert st.players c.player_id _) k = _
  exact alookup_ainsert_ne _ _ _ _ h

theorem updateOthers_good (pid : String) (SC : List (String × SlimClient))
    (cs : List (String × SlimClient)) (st : PState) (effs : List Effect) (k : String)
    (hsc : st.socket_clients = SC)
    (hor : (∃ p, alookup st.players k = some p ∧
        p.can_sync_with = canSyncTarget SC k) ∨
      (k ≠ pid ∧ k ∈ cs.map (fun kv => kv.2.player_id))) :
    ∃ p, alookup (updateOthers pid st cs effs).1.players k = some p ∧
      p.can_sync_with = canSyncTarget SC k := by
  induction cs generalizing st effs with
  | nil =>
    rcases hor with h | ⟨_, h⟩
    · simpa [updateOthers] using h
    · simp at h
  | cons kv rest ih =>
    simp only [updateOthers]
    by_cases hskip : kv.2.player_id = pid
    · rw [if_pos hskip]
      refine ih st effs hsc ?_
      rcases hor with h | ⟨hne, hmem⟩
      · exact Or.inl h
      · rw [List.map_cons] at hmem
        rcases List.mem_cons.mp hmem with h1 | h1
        · exact absurd (h1.trans hskip) hne
        · exact Or.inr ⟨hne, h1⟩
    · rw [if_neg hskip]
      refine ih _ _ ?_ ?_
      · rw [handle_player_update_socket]
        exact hsc
      · by_cases hk : k = kv.2.player_id
        · subst hk
          left
          obtain ⟨p, hp1, hp2⟩ := handle_player_update_lookup_self st kv.2
          exact ⟨p, hp1, by rw [hp2, hsc]⟩
        · rcases hor with h | ⟨hne, hmem⟩
          · left
            obtain ⟨p, hp1, hp2⟩ := h
            exact ⟨p, by rw [handle_player_update_lookup_ne _ _ _ hk]; exact hp1, hp2⟩
          · rw [List.map_cons] at hmem
            rcases List.mem_cons.mp hmem with h1 | h1
            · exact absurd h1 hk
            · exact Or.inr ⟨hne, h1⟩

/-- Refreshing the new player and then every connected player restores
the can_sync_with invariant for every connected client. -/
theorem connect_refresh_good (st2 : PState) (client : SlimClient) :
    ∀ kv ∈ st2.socket_clients,
      ∃ p, alookup (updateOthers client.player_id
          (handle_player_update st2 client).1 st2.socket_clients
          (handle_player_update st2 client).2).1.players kv.2.player_id = some p ∧
        p.can_sync_with = canSyncTarget st2.socket_clients kv.2.player_id := by
  intro kv hkv
  apply updateOthers_good client.player_id st2.socket_clients st2.socket_clients _ _ _
    (handle_player_update_socket st2 client)
  by_cases hk : kv.2.player_id = client.player_id
  · left
    rw [hk]
    obtain ⟨p, h1, h2⟩ := handle_player_update_lookup_self st2 client
    exact ⟨p, h1, h2⟩
  · right
    exact ⟨hk, List.mem_map_of_mem _ hkv⟩

/-- C5 amended: the invariant holds at the quiescent point after a client
connects — every connected player then lists exactly the other connected
player ids in can_sync_with (a player update refreshes only the updated
player, and a disconnect refreshes nobody, see the counterexample). -/
theorem c5_amended_connect_invariant (st : PState) (client : SlimClient)
    (cached : Option (Bool × Int)) :
    ∀ kv ∈ (handle_connected st client cached).1.socket_clients,
      canSyncOk (handle_connected st client cached).1 kv.2.player_id := by
  have hstate : (handle_connected st client cached).1 =
      (updateOthers client.player_id
        (handle_player_update (connState2 st client) client).1
        (connState2 st client).socket_clients
        (handle_player_update (connState2 st client) client).2).1 := rfl
  have hsock : (handle_connected st client cached).1.socket_clients =
      (connState2 st client).socket_clients := by
    rw [hstate, updateOthers_socket, handle_player_update_socket]
  intro kv hkv
  rw [hsock] at hkv
  unfold canSyncOk
  rw [hstate, updateOthers_socket, handle_player_update_socket]
  exact connect_refresh_good (connState2 st client) client kv hkv

/-- C5 amended witness: after a third client connects, an existing player
can_sync_with is refreshed to the other connected ids. -/
theorem c5_amended_witness :
    canSyncOk (handle_connected exStC5 (mkClient "c" .stopped 0 0) none).1 "a" :=
  c5_amended_connect_invariant exStC5 (mkClient "c" .stopped 0 0) none
    ("a", mkClient "a" .playing 0 0) (by decide)

/-- C10 witness: a powered-off muted client is reported unmuted. -/
theorem c10_witness :
    ∃ p, alookup (handle_player_update exStC5
        ({ mkClient "a" .stopped 0 0 with powered := false, muted := true })).1.players
        "a" = some p ∧
      p.volume_muted = (false && true) ∧
      ((false : Bool) = false → p.volume_muted = false) :=
  c10_volume_muted_is_powered_and_muted exStC5
    ({ mkClient "a" .stopped 0 0 with powered := false, muted := true })

/-- C4 amended witness at the concrete stale ring. -/
theorem c4_amended_witness :
    handle_client_sync exEnv 20 exStC4 exC4Follower =
      ({ exStC4 with sync_playpoints := (ainsert exStC4.sync_playpoints "f"
          [newPlaypoint exEnv 20 (mkClient "m" .playing 1000 0) exC4Follower exJob]) },
       []) :=
  c4_amended_invalidation_still_appends exEnv 20 exStC4 exC4Follower
    (mkPlayer "f" .playing (some "m") [] ["m"]) "m" (mkClient "m" .playing 1000 0)
    exJob [⟨0, "job1", 5⟩] ⟨0, "job1", 5⟩
    (by decide) rfl rfl rfl rfl (by decide) rfl (by decide) rfl
    (Or.inl (by norm_num))

end Slimproto
